import Mathlib

/-!
Shallow embedding of the NES-6502 CPU core (src/src/cpu/cpu.cc).

Registers and memory cells are modelled as `Nat` values, reduced modulo
256 (bytes) or 65536 (addresses) exactly where the C++ unsigned types
truncate.  Memory is a total function `Nat → Nat`, matching the bus
contract (every address yields a byte).  The `Status` class and the
`Mem` façade live in headers that are not part of the surviving source;
their behaviour is modelled from the specification (sections 4.1, 4.2)
and each such definition is marked `Modelled from the spec`.
-/

namespace NES6502

/-- Pointwise update of a memory function at one address. -/
def updMem (m : Nat → Nat) (addr v : Nat) : Nat → Nat :=
  fun a => if a = addr then v else m a

/-- CPU state: registers A, X, Y, stack pointer S, status word P,
program counter PC, the resolved operand cell `op`, the current
command's accumulator-mode bit (`cmd->isAcc()`), and bus memory. -/
structure Cpu where
  a : Nat
  x : Nat
  y : Nat
  s : Nat
  p : Nat
  pc : Nat
  op : Nat
  isAcc : Bool
  mem : Nat → Nat

/-- Bus read: a 16-bit address yields one byte. -/
def Cpu.memRead (st : Cpu) (addr : Nat) : Nat :=
  st.mem (addr % 65536) % 256

/-- Bus write: stores one byte at a 16-bit address. -/
def Cpu.memWrite (st : Cpu) (addr v : Nat) : Cpu :=
  { st with mem := updMem st.mem (addr % 65536) (v % 256) }

/-- Set or clear bit `k` of the status byte `p`. -/
def setBit (p k : Nat) (b : Bool) : Nat :=
  if b then p ||| 2 ^ k else p &&& (255 ^^^ 2 ^ k)

/-- Modelled from the spec: `Status::setNegative` on a wide value,
N ← bit 7 of the low byte of `v` (the `Status` class header is not in
the surviving source). -/
def setNegativeV (p v : Nat) : Nat :=
  setBit p 7 (Nat.testBit (v % 256) 7)

/-- Modelled from the spec: `Status::setNegative` on a boolean. -/
def setNegativeB (p : Nat) (b : Bool) : Nat :=
  setBit p 7 b

/-- Modelled from the spec: `Status::setZero` on a wide value,
Z ← `(v & 0xFF) == 0`. -/
def setZeroV (p v : Nat) : Nat :=
  setBit p 1 (v % 256 == 0)

/-- Modelled from the spec: `Status::setZero` on a boolean. -/
def setZeroB (p : Nat) (b : Bool) : Nat :=
  setBit p 1 b

/-- Modelled from the spec: `Status::setCarry` on a wide value,
C ← `v > 0xFF` (the additive / left-shift overload; the spec notes that
right-shift paths must provide C explicitly, not via this overload). -/
def setCarryV (p v : Nat) : Nat :=
  setBit p 0 (255 < v)

/-- Modelled from the spec: `Status::setCarry` on a boolean. -/
def setCarryB (p : Nat) (b : Bool) : Nat :=
  setBit p 0 b

/-- Modelled from the spec: `Status::setOverflow`, V ← b (bit 6). -/
def setOverflowB (p : Nat) (b : Bool) : Nat :=
  setBit p 6 b

/-- Modelled from the spec: `Status::getCarry`, the carry bit as 0/1. -/
def getCarry (p : Nat) : Nat :=
  if Nat.testBit p 0 then 1 else 0

/-- Modelled from the spec: `Status::isDecimal`, the D bit (bit 3). -/
def isDecimal (p : Nat) : Bool :=
  Nat.testBit p 3

/-- `Cpu::read`: accumulator if the current command is in accumulator
mode, otherwise the byte at the resolved operand address. -/
def Cpu.read (st : Cpu) : Nat :=
  if st.isAcc then st.a else st.memRead st.op

/-- `Cpu::write`: store to the accumulator or to memory at `op`. -/
def Cpu.write (st : Cpu) (data : Nat) : Cpu :=
  if st.isAcc then { st with a := data % 256 } else st.memWrite st.op data

/-- Modelled from the spec: `Mem::abs(pc)` — read the 16-bit
little-endian word at PC, advance PC by 2, return the word. -/
def Cpu.memAbs (st : Cpu) : Nat × Cpu :=
  let lo := st.memRead st.pc
  let hi := st.memRead ((st.pc + 1) % 65536)
  (lo + 256 * hi, { st with pc := (st.pc + 2) % 65536 })

/-- Modelled from the spec: `Mem::abs(pc, idx)` — like `abs`, then add
the index with 16-bit carry. -/
def Cpu.memAbsIdx (st : Cpu) (idx : Nat) : Nat × Cpu :=
  let r := st.memAbs
  ((r.1 + idx) % 65536, r.2)

/-- Modelled from the spec: `Mem::zpg(pc)` — read one byte at PC,
advance PC by 1, return it zero-extended. -/
def Cpu.memZpg (st : Cpu) : Nat × Cpu :=
  (st.memRead st.pc, { st with pc := (st.pc + 1) % 65536 })

/-- Modelled from the spec: `Mem::zpg(pc, idx)` — like `zpg`, add the
index modulo 256 (no carry into the high byte). -/
def Cpu.memZpgIdx (st : Cpu) (idx : Nat) : Nat × Cpu :=
  let r := st.memZpg
  ((r.1 + idx) % 256, r.2)

/-- Modelled from the spec: `Mem::indirect(pc)` — read a 16-bit pointer
at PC (advance 2), then read the 16-bit target from that pointer with
the 6502 page-wrap bug: when the pointer's low byte is 0xFF the high
byte of the target comes from `ptr & 0xFF00`. -/
def Cpu.memIndirect (st : Cpu) : Nat × Cpu :=
  let r := st.memAbs
  let ptr := r.1
  let lo := r.2.memRead ptr
  let hiAddr := if ptr % 256 == 255 then ptr / 256 * 256 else (ptr + 1) % 65536
  let hi := r.2.memRead hiAddr
  (lo + 256 * hi, r.2)

/-- Modelled from the spec: `Mem::indexed(pc, x)` — read `LL` at PC
(advance 1), return the word read from `(LL+x) & 0xFF` and
`(LL+x+1) & 0xFF` (zero-page wrap). -/
def Cpu.memIndexedX (st : Cpu) (idx : Nat) : Nat × Cpu :=
  let r := st.memZpg
  let lo := r.2.memRead ((r.1 + idx) % 256)
  let hi := r.2.memRead ((r.1 + idx + 1) % 256)
  (lo + 256 * hi, r.2)

/-- Modelled from the spec: `Mem::indexed(pc)` — read `LL` at PC
(advance 1), return the word read from `LL` and `(LL+1) & 0xFF`. -/
def Cpu.memIndexed (st : Cpu) : Nat × Cpu :=
  let r := st.memZpg
  let lo := r.2.memRead r.1
  let hi := r.2.memRead ((r.1 + 1) % 256)
  (lo + 256 * hi, r.2)

/-- `Cpu::IMP`: implied addressing, nothing happens. -/
def Cpu.IMP (st : Cpu) : Cpu :=
  st

/-- `Cpu::ACC`: accumulator addressing, `op ← A`. -/
def Cpu.ACC (st : Cpu) : Cpu :=
  { st with op := st.a }

/-- `Cpu::IMM`: immediate addressing, `op = pc++`. -/
def Cpu.IMM (st : Cpu) : Cpu :=
  { st with op := st.pc, pc := (st.pc + 1) % 65536 }

/-- `Cpu::ZPG`: `op = mem->zpg(pc)`. -/
def Cpu.ZPG (st : Cpu) : Cpu :=
  let r := st.memZpg
  { r.2 with op := r.1 }

/-- `Cpu::ZPGX`: `op = mem->zpg(pc, x)`. -/
def Cpu.ZPGX (st : Cpu) : Cpu :=
  let r := st.memZpgIdx st.x
  { r.2 with op := r.1 }

/-- `Cpu::ZPGY`: `op = mem->zpg(pc, y)`. -/
def Cpu.ZPGY (st : Cpu) : Cpu :=
  let r := st.memZpgIdx st.y
  { r.2 with op := r.1 }

/-- `Cpu::ABS`: `op = mem->abs(pc)`. -/
def Cpu.ABS (st : Cpu) : Cpu :=
  let r := st.memAbs
  { r.2 with op := r.1 }

/-- `Cpu::ABSX`: `op = mem->abs(pc, x)`. -/
def Cpu.ABSX (st : Cpu) : Cpu :=
  let r := st.memAbsIdx st.x
  { r.2 with op := r.1 }

/-- `Cpu::ABSY`: `op = mem->abs(pc, y)`. -/
def Cpu.ABSY (st : Cpu) : Cpu :=
  let r := st.memAbsIdx st.y
  { r.2 with op := r.1 }

/-- `Cpu::IND`: `op = mem->indirect(pc)`. -/
def Cpu.IND (st : Cpu) : Cpu :=
  let r := st.memIndirect
  { r.2 with op := r.1 }

/-- `Cpu::INDX`: `op = mem->indexed(pc, x)`. -/
def Cpu.INDX (st : Cpu) : Cpu :=
  let r := st.memIndexedX st.x
  { r.2 with op := r.1 }

/-- `Cpu::INDY`: `auto index = mem->indexed(pc); op = 0x00FF & (index + y);`
— note the 0x00FF mask in the source. -/
def Cpu.INDY (st : Cpu) : Cpu :=
  let r := st.memIndexed
  { r.2 with op := (r.1 + st.y) % 256 }

/-- `Cpu::REL`: the source body is a call to `IMM()`. -/
def Cpu.REL (st : Cpu) : Cpu :=
  st.IMM

/-- `Cpu::ADC(uint8_t arg)`: 16-bit sum `a + arg + carry`, A ← low
byte, then `setNegative(sum); setZero(sum); setCarry(sum)`.  The BCD
branch in the source is empty, and `setOverflow` is never called. -/
def Cpu.adcArg (st : Cpu) (arg : Nat) : Cpu :=
  let sum := st.a + arg + getCarry st.p
  let st1 := { st with a := sum % 256 }
  { st1 with p := setCarryV (setZeroV (setNegativeV st1.p sum) sum) sum }

/-- `Cpu::ADC()`: `ADC(read())`. -/
def Cpu.ADC (st : Cpu) : Cpu :=
  st.adcArg st.read

/-- `Cpu::CMP(uint8_t arg)`: with `data = read()`,
`setNegative(data > arg); setZero(data == arg); setCarry(data <= arg)`. -/
def Cpu.cmpArg (st : Cpu) (arg : Nat) : Cpu :=
  let data := st.read
  { st with
    p := setCarryB (setZeroB (setNegativeB st.p (decide (arg < data)))
           (data == arg)) (decide (data ≤ arg)) }

/-- `Cpu::CMP()`: `CMP(a)`. -/
def Cpu.CMP (st : Cpu) : Cpu :=
  st.cmpArg st.a

/-- `Cpu::CPX()`: `CMP(x)`. -/
def Cpu.CPX (st : Cpu) : Cpu :=
  st.cmpArg st.x

/-- `Cpu::CPY()`: `CMP(y)`. -/
def Cpu.CPY (st : Cpu) : Cpu :=
  st.cmpArg st.y

/-- `Cpu::JMP`: `pc = op`. -/
def Cpu.JMP (st : Cpu) : Cpu :=
  { st with pc := st.op }

/-- `Cpu::JSR`: splits PC into `lo`/`hi`, then
`mem->write(s++, lo); mem->write(s++, hi); JMP();` — the write address
is the zero-extended stack byte S itself, and S increments. -/
def Cpu.JSR (st : Cpu) : Cpu :=
  let lo := st.pc % 256
  let hi := st.pc / 256 % 256
  let st1 := st.memWrite st.s lo
  let st2 := { st1 with s := (st1.s + 1) % 256 }
  let st3 := st2.memWrite st2.s hi
  let st4 := { st3 with s := (st3.s + 1) % 256 }
  st4.JMP

/-- `Cpu::PHA`: `mem->write(s++, a)`. -/
def Cpu.PHA (st : Cpu) : Cpu :=
  let st1 := st.memWrite st.s st.a
  { st1 with s := (st1.s + 1) % 256 }

/-- `Cpu::PLA`: `a = mem->read(s++)`, then N/Z from the pulled byte. -/
def Cpu.PLA (st : Cpu) : Cpu :=
  let v := st.memRead st.s
  let st1 := { st with a := v, s := (st.s + 1) % 256 }
  { st1 with p := setZeroV (setNegativeV st1.p v) v }

/-- `Cpu::PHP`: `mem->write(s++, p)` — the raw status byte. -/
def Cpu.PHP (st : Cpu) : Cpu :=
  let st1 := st.memWrite st.s st.p
  { st1 with s := (st1.s + 1) % 256 }

/-- `Cpu::PLP`: `p = mem->read(s++)` — the pulled byte replaces P
wholesale. -/
def Cpu.PLP (st : Cpu) : Cpu :=
  { st with p := st.memRead st.s, s := (st.s + 1) % 256 }

/-- `Cpu::reset`: every register, the status byte and PC are set to 0. -/
def Cpu.reset (st : Cpu) : Cpu :=
  { st with x := 0, y := 0, p := 0, s := 0, a := 0, pc := 0 }

/-- `Cpu::LSR`: `data = read() >> 1`, then
`setZero(data); setCarry(data); setNegative(false); write(data)` —
the carry setter receives the already-shifted value. -/
def Cpu.LSR (st : Cpu) : Cpu :=
  let data := st.read / 2
  let st1 := { st with p := setNegativeB (setCarryV (setZeroV st.p data) data) false }
  st1.write data

/-- `Cpu::NOP`: empty body. -/
def Cpu.NOP (st : Cpu) : Cpu :=
  st

/-- `Cpu::JAM`: the source body is a call to `NOP()`. -/
def Cpu.JAM (st : Cpu) : Cpu :=
  st.NOP

/-- The signed-overflow predicate the specification requires of ADC:
`((A ^ r) & (M ^ r) & 0x80) != 0` for the 8-bit result `r`. -/
def specOverflow (a m r : Nat) : Bool :=
  decide ((a ^^^ r) &&& (m ^^^ r) &&& 128 ≠ 0)

/-- A resolver touches at most `op` and `pc`: registers, stack pointer,
status and memory are all preserved. -/
def preservesCore (f : Cpu → Cpu) : Prop :=
  ∀ st : Cpu, (f st).a = st.a ∧ (f st).x = st.x ∧ (f st).y = st.y ∧
    (f st).s = st.s ∧ (f st).p = st.p ∧ (f st).mem = st.mem

/-- All-zero memory, for concrete test states. -/
def zeroMem : Nat → Nat :=
  fun _ => 0

/-- Test state for ADC: A=0x7F, V clear, operand byte 0x01 at 0x10. -/
def stC1 : Cpu :=
  { a := 0x7F, x := 0, y := 0, s := 0xFD, p := 0, pc := 0x200, op := 0x10,
    isAcc := false, mem := fun addr => if addr = 0x10 then 1 else 0 }

/-- Test state for CMP: A=0x80, operand byte 0x00 at 0x10. -/
def stC2 : Cpu :=
  { a := 0x80, x := 0, y := 0, s := 0xFD, p := 0, pc := 0x200, op := 0x10,
    isAcc := false, mem := zeroMem }

/-- Test state for JSR: PC=0x8003 (past the operand), S=0xFD, target
0x9000 resolved into `op`. -/
def stC3 : Cpu :=
  { a := 0, x := 0, y := 0, s := 0xFD, p := 0, pc := 0x8003, op := 0x9000,
    isAcc := false, mem := zeroMem }

/-- Test state for PHA: S=0x00, A=0x42. -/
def stC4a : Cpu :=
  { a := 0x42, x := 0, y := 0, s := 0x00, p := 0, pc := 0, op := 0,
    isAcc := false, mem := zeroMem }

/-- Test state for PLA: S=0x50, with distinct bytes at 0x0050 (page 0)
and 0x0151 (where hardware would pull from). -/
def stC4b : Cpu :=
  { a := 0, x := 0, y := 0, s := 0x50, p := 0, pc := 0, op := 0,
    isAcc := false,
    mem := fun addr => if addr = 0x50 then 0x33 else if addr = 0x151 then 0x99 else 0 }

/-- Test state for PHP: P=0x00, S=0x40. -/
def stC5a : Cpu :=
  { a := 0, x := 0, y := 0, s := 0x40, p := 0x00, pc := 0, op := 0,
    isAcc := false, mem := zeroMem }

/-- Test state for PLP: P=0x30 (B and bit 5 set), S=0x80, stack byte
0x00. -/
def stC5b : Cpu :=
  { a := 0, x := 0, y := 0, s := 0x80, p := 0x30, pc := 0, op := 0,
    isAcc := false, mem := zeroMem }

/-- Test state for reset: scrambled registers, reset vector 0x1234 at
0xFFFC/0xFFFD. -/
def stC6 : Cpu :=
  { a := 5, x := 6, y := 7, s := 0x33, p := 0xFF, pc := 0x4321, op := 0,
    isAcc := false,
    mem := fun addr => if addr = 0xFFFC then 0x34 else if addr = 0xFFFD then 0x12 else 0 }

/-- Test state for INDY: pointer byte 0x10 at PC, zero-page word at
0x10/0x11 is 0x0200, Y=1. -/
def stC7 : Cpu :=
  { a := 0, x := 0, y := 1, s := 0xFD, p := 0, pc := 0, op := 0,
    isAcc := false,
    mem := fun addr => if addr = 0 then 0x10 else if addr = 0x11 then 2 else 0 }

/-- Test state for LSR in accumulator mode: A=0x01 (bit 0 set). -/
def stC8 : Cpu :=
  { a := 0x01, x := 0, y := 0, s := 0xFD, p := 0, pc := 0, op := 0,
    isAcc := true, mem := zeroMem }

/-- Claim C1: ADC is claimed to set V iff `((A^r)&(M^r)&0x80) != 0`.
The code computes A, N, Z and C as claimed, but its body never calls
`setOverflow`: at A=0x7F, M=0x01, C=0 the result is 0x80 with the
claimed formula demanding V=1, yet bit 6 of P stays clear. -/
theorem adc_overflow_never_set :
    (Cpu.ADC stC1).a = 0x80 ∧
    Nat.testBit (Cpu.ADC stC1).p 6 = false ∧
    specOverflow 0x7F 0x01 0x80 = true := by
  decide

/-- Claim C2: the compare operation is claimed to set N to bit 7 of the
16-bit difference `reg - M`; the code instead sets N to `M > reg`.  At
A=0x80, M=0x00 the difference is 0x80 (bit 7 set) but the code leaves N
clear, while C and Z behave as claimed. -/
theorem cmp_negative_polarity_bug :
    Nat.testBit (Cpu.CMP stC2).p 7 = false ∧
    Nat.testBit ((0x80 - 0x00) % 256) 7 = true ∧
    Nat.testBit (Cpu.CMP stC2).p 0 = true ∧
    Nat.testBit (Cpu.CMP stC2).p 1 = false := by
  decide

/-- Claim C3: JSR is claimed to push PC-1 high-then-low at `0x0100|S`
with S post-decremented.  The code pushes PC itself low-then-high at
the zero-page addresses S and S+1, incrementing S: from PC=0x8003,
S=0xFD it writes 0x03 to 0x00FD and 0x80 to 0x00FE, leaves page one
untouched, and ends with S=0xFF instead of 0xFB. -/
theorem jsr_stack_discipline_bug :
    (Cpu.JSR stC3).mem 0xFD = 0x03 ∧
    (Cpu.JSR stC3).mem 0xFE = 0x80 ∧
    (Cpu.JSR stC3).mem 0x1FD = 0 ∧
    (Cpu.JSR stC3).mem 0x1FC = 0 ∧
    (Cpu.JSR stC3).s = 0xFF ∧
    (Cpu.JSR stC3).pc = 0x9000 := by
  decide

/-- Claim C4: PHA with S=0x00 is claimed to write A to 0x0100 and leave
S=0xFF; the code writes A to zero-page address 0x0000 and increments S
to 0x01.  PLA likewise reads from page 0 at the old S and increments:
with S=0x50 it loads 0x33 from 0x0050, not 0x99 from 0x0151. -/
theorem pha_pla_stack_page_bug :
    (Cpu.PHA stC4a).mem 0x0000 = 0x42 ∧
    (Cpu.PHA stC4a).mem 0x0100 = 0 ∧
    (Cpu.PHA stC4a).s = 0x01 ∧
    (Cpu.PLA stC4b).a = 0x33 ∧
    (Cpu.PLA stC4b).s = 0x51 := by
  decide

/-- Claim C5: PHP is claimed to push `P | 0x30` and PLP to preserve B
and force bit 5.  The code pushes the raw P (with P=0 the pushed byte
is 0x00, not 0x30) and PLP overwrites P with the pulled byte (pulling
0x00 over P=0x30 clears both B and bit 5). -/
theorem php_plp_b_and_bit5_bug :
    (Cpu.PHP stC5a).mem 0x40 = 0x00 ∧
    (Cpu.PLP stC5b).p = 0x00 ∧
    Nat.testBit (Cpu.PLP stC5b).p 4 = false ∧
    Nat.testBit (Cpu.PLP stC5b).p 5 = false := by
  decide

/-- Claim C6: reset is claimed to set S=0xFD, P=0x24 and load PC from
the vector at 0xFFFC.  The code zeroes A, X and Y as claimed but also
zeroes S, P and PC, never reading the vector (here 0x1234). -/
theorem reset_values_bug :
    (Cpu.reset stC6).a = 0 ∧ (Cpu.reset stC6).x = 0 ∧ (Cpu.reset stC6).y = 0 ∧
    (Cpu.reset stC6).s = 0x00 ∧ (Cpu.reset stC6).p = 0x00 ∧
    (Cpu.reset stC6).pc = 0x0000 ∧
    (Cpu.reset stC6).memRead 0xFFFC + 256 * (Cpu.reset stC6).memRead 0xFFFD = 0x1234 := by
  decide

/-- Claim C7: INDY is claimed to mask the sum with 0xFFFF so the add of
Y carries into the high byte.  The code masks with 0x00FF: with the
zero-page word 0x0200 and Y=1 it resolves op=0x0001 instead of
0x0201. -/
theorem indy_mask_bug :
    (Cpu.INDY stC7).op = 0x0001 ∧ (0x0200 + 1) % 65536 = 0x0201 := by
  decide

/-- Claim C8: LSR is claimed to set C to bit 0 of the pre-shift input.
The code hands the already-shifted value to the additive carry setter
(C ← value > 0xFF), which can never fire for a byte: with A=0x01 the
pre-shift bit 0 is 1 but C ends clear; the shifted result 0x00, N=0 and
Z=1 are as claimed. -/
theorem lsr_carry_from_shifted_value_bug :
    (Cpu.LSR stC8).a = 0x00 ∧
    Nat.testBit (Cpu.LSR stC8).p 0 = false ∧
    Nat.testBit (0x01 : Nat) 0 = true ∧
    Nat.testBit (Cpu.LSR stC8).p 1 = true ∧
    Nat.testBit (Cpu.LSR stC8).p 7 = false := by
  decide

/-- Claim C9: the JAM opcodes are claimed to latch the CPU halted until
reset.  The code's `JAM` body is a call to `NOP()`: it is the identity
on the CPU state, there is no halted latch anywhere in the state, and
execution continues normally. -/
theorem jam_is_identity (st : Cpu) : Cpu.JAM st = st :=
  rfl

/-- Witness for C9's theorem at a concrete state. -/
theorem jam_is_identity_at : Cpu.JAM stC1 = stC1 :=
  jam_is_identity stC1

/-- Claim C10: every addressing-mode resolver modifies at most `op` and
`pc`; A, X, Y, S, P and memory are unchanged and no memory write is
issued (memory is preserved as a whole function). -/
theorem resolvers_preserve_core :
    preservesCore Cpu.IMP ∧ preservesCore Cpu.ACC ∧ preservesCore Cpu.IMM ∧
    preservesCore Cpu.ZPG ∧ preservesCore Cpu.ZPGX ∧ preservesCore Cpu.ZPGY ∧
    preservesCore Cpu.ABS ∧ preservesCore Cpu.ABSX ∧ preservesCore Cpu.ABSY ∧
    preservesCore Cpu.IND ∧ preservesCore Cpu.INDX ∧ preservesCore Cpu.INDY ∧
    preservesCore Cpu.REL := by
  refine ⟨?_, ?_, ?_, ?_, ?_, ?_, ?_, ?_, ?_, ?_, ?_, ?_, ?_⟩ <;>
    exact fun st => ⟨rfl, rfl, rfl, rfl, rfl, rfl⟩

end NES6502
